/-
  Spec2Proof — a shallow embedding of the provider-harness Agent controller
  (internal/controller/agent/agent.go) and of the Agent custom-resource data
  model it operates on, together with theorems settling the spec's claims.

  Modelling conventions:
  * Go pointer-typed optional fields become `Option`; `nil` is `none`.
  * The remote Harness SDK client is an oracle: `Observe` receives the
    remote-get call as a function `get : String → String → CallOutcome`
    (identifier and account identifier in, the Go call's three results out),
    and `Create` receives the remote-create call as
    `createFn : V1Agent → CallOutcome`.  Likewise `connect` receives its
    collaborators (usage tracker, ProviderConfig lookup, credential
    extractor, service constructor) as function arguments, each returning
    either a value or an error string.
  * Go API calls return `(value, *http.Response, error)`; `CallOutcome`
    packages the three.  The controller dereferences
    `*agent.Health.HarnessGitopsAgent.Status` without a nil check; the
    three-pointer chain is collapsed into `RemoteAgent.healthStatus :
    Option String`, and a dereference of `none` is the `crash` outcome
    (a Go nil-pointer runtime fault).
  * `log.Fatalln` and `log.Fatal` (which exit the process) are the `fatal`
    outcome.
  * `log.Printf` / `fmt.Printf` logging and the HARNESS_API_KEY environment
    read placed into the context are I/O effects with no influence on the
    returned values and are not modelled.
  * Observe and Create each register a deferred `response.Body.Close()`
    that calls `log.Fatal` when the close fails.  The deferred function
    runs after the return values are computed (it reassigns only a local,
    never a named result) — so it cannot change any returned value, but it
    is a further process-termination path.  `observe` and `create` model
    the computed results and the resource mutation; `observeRun` and
    `createRun` are the full control flow: the same computation plus the
    deferred cleanup, taking the outcome of the body close as one more
    oracle argument (`closeErr`, `none` = the close succeeded).  The
    cleanup runs exactly when the remote call was reached and produced a
    non-nil response — including while a nil-pointer panic is unwinding,
    where `log.Fatal` exits before the panic propagates.
  * Each operation returns its Go results paired with the post-state of the
    managed resource (the Go code mutates `cr` through a pointer).
-/
import Mathlib

namespace ProviderHarness

/-- `AgentParameters` — the configurable spec fields of an Agent
    (apis/gitops/v1alpha1).  The controller accesses every identifier field
    through a pointer (`Option`); `tags` is the optional free-form mapping,
    never read by the controller. -/
structure AgentParameters where
  accountIdentifier : Option String
  projectIdentifier : Option String
  orgIdentifier : Option String
  description : Option String
  tags : List (String × String)
  identifier : Option String
deriving Repr, DecidableEq

/-- `AgentObservation` — the observable status fields of an Agent: the single
    `state` string mirrored from the remote health field. -/
structure AgentObservation where
  state : String
deriving Repr, DecidableEq

/-- A status condition (crossplane-runtime `xpv1.Condition`), reduced to the
    fields the controller sets: type, status and reason. -/
structure Condition where
  ctype : String
  cstatus : String
  reason : String
deriving Repr, DecidableEq

/-- `xpv1.Available()` — the Ready=True/Available condition. -/
def available : Condition := ⟨"Ready", "True", "Available"⟩

/-- `SetConditions` for a single condition (crossplane-runtime): replace the
    existing condition of the same type, or append if none exists. -/
def setCondition (cs : List Condition) (c : Condition) : List Condition :=
  if cs.any (fun o => o.ctype == c.ctype) then
    cs.map (fun o => if o.ctype == c.ctype then c else o)
  else cs ++ [c]

/-- `AgentStatus` — conditions plus the `atProvider` observation. -/
structure AgentStatus where
  conditions : List Condition
  atProvider : AgentObservation
deriving Repr, DecidableEq

/-- `AgentSpec` — the desired state: the ProviderConfig reference name (from
    the embedded `ResourceSpec`) and the `forProvider` parameters. -/
structure AgentSpec where
  providerConfigRef : String
  forProvider : AgentParameters
deriving Repr, DecidableEq

/-- An `Agent` managed resource: object-meta name, spec and status. -/
structure Agent where
  name : String
  spec : AgentSpec
  status : AgentStatus
deriving Repr, DecidableEq

/-- A `resource.Managed` handed to the adapter: either an `Agent` or some
    other managed-resource kind (the failing dynamic type assertion). -/
inductive Managed where
  | agent (cr : Agent)
  | other
deriving Repr, DecidableEq

/-- The desired spec of a managed resource, when it is an Agent. -/
def Managed.specOf : Managed → Option AgentSpec
  | .agent cr => some cr.spec
  | .other => none

/-- Error-message constants of agent.go. -/
def errNotAgent : String := "managed resource is not a Agent custom resource"

/-- `errTrackPCUsage` constant of agent.go. -/
def errTrackPCUsage : String := "cannot track ProviderConfig usage"

/-- `errGetPC` constant of agent.go. -/
def errGetPC : String := "cannot get ProviderConfig"

/-- `errGetCreds` constant of agent.go. -/
def errGetCreds : String := "cannot get credentials"

/-- `errNewClient` constant of agent.go. -/
def errNewClient : String := "cannot create new Service"

/-- `errors.Wrap(err, msg)` — the wrapped message rendered as a string. -/
def wrap (err msg : String) : String := msg ++ ": " ++ err

/-- `nextgen.HEALTHY_Servicev1HealthStatus` sentinel. -/
def HEALTHY_Servicev1HealthStatus : String := "HEALTHY"

/-- `http.StatusNotFound`. -/
def StatusNotFound : Nat := 404

/-- The remote agent value returned by the SDK.  The controller reads only
    `*agent.Health.HarnessGitopsAgent.Status`; the pointer chain is collapsed
    into one `Option` (`none` = some pointer in the chain is nil). -/
structure RemoteAgent where
  healthStatus : Option String
deriving Repr, DecidableEq

/-- The `*http.Response` of an SDK call, reduced to the status code the
    controller inspects (`none` = nil response pointer). -/
structure HTTPResponse where
  statusCode : Nat
deriving Repr, DecidableEq

/-- The `(agent, response, err)` triple returned by an SDK call. -/
structure CallOutcome where
  agent : RemoteAgent
  response : Option HTTPResponse
  err : Option String
deriving Repr, DecidableEq

/-- The guard of Observe's not-found branch:
    `err != nil || (response != nil && response.StatusCode == 404)`. -/
def notFoundBranch (o : CallOutcome) : Bool :=
  o.err.isSome || (match o.response with
    | some r => r.statusCode == StatusNotFound
    | none => false)

/-- `managed.ExternalObservation`, restricted to the fields agent.go sets. -/
structure ExternalObservation where
  resourceExists : Bool
  resourceUpToDate : Bool
deriving Repr, DecidableEq

/-- `managed.ExternalCreation` (connection details only). -/
structure ExternalCreation where
  connectionDetails : List (String × String)
deriving Repr, DecidableEq

/-- `managed.ExternalUpdate` (connection details only). -/
structure ExternalUpdate where
  connectionDetails : List (String × String)
deriving Repr, DecidableEq

/-- How an Observe call ends: a returned observation, a returned error, a
    `log.Fatalln` process exit, or a nil-pointer runtime fault. -/
inductive ObserveResult where
  | ok (obs : ExternalObservation)
  | err (e : String)
  | fatal (m : String)
  | crash
deriving Repr, DecidableEq

/-- `true` when the operation returned to its caller (value or error)
    rather than killing the process. -/
def ObserveResult.isReturn : ObserveResult → Bool
  | .ok _ => true
  | .err _ => true
  | .fatal _ => false
  | .crash => false

/-- How a Create call ends: a returned creation, a returned error, a
    `log.Fatal` process exit (from the deferred close), or a nil-pointer
    runtime fault. -/
inductive CreateResult where
  | ok (c : ExternalCreation)
  | err (e : String)
  | fatal (m : String)
  | crash
deriving Repr, DecidableEq

/-- `true` when Create returned to its caller rather than killing the
    process. -/
def CreateResult.isReturn : CreateResult → Bool
  | .ok _ => true
  | .err _ => true
  | .fatal _ => false
  | .crash => false

/-- `(c *external) Observe` of agent.go, lines 162–222.  `get` is the
    `AgentServiceForServerGet` remote call (identifier, account identifier).
    Returns the Go result and the post-state of the managed resource. -/
def observe (mg : Managed) (get : String → String → CallOutcome) :
    ObserveResult × Managed :=
  match mg with
  | .other => (.err errNotAgent, mg)
  | .agent cr =>
    let identifier := cr.spec.forProvider.identifier.getD ""
    match cr.spec.forProvider.accountIdentifier with
    | none => (.fatal "AccountIndentifier is required", mg)
    | some acct =>
      let o := get identifier acct
      if notFoundBranch o then
        (.ok ⟨false, false⟩, mg)
      else
        match o.agent.healthStatus with
        | none => (.crash, mg)
        | some s =>
          if s == HEALTHY_Servicev1HealthStatus then
            (.ok ⟨true, true⟩, .agent { cr with status :=
              { cr.status with
                conditions := setCondition cr.status.conditions available } })
          else
            (.ok ⟨true, true⟩, .agent cr)

/-- `nextgen.Servicev1AppProjectMapping{}` — an empty mapping value. -/
structure Servicev1AppProjectMapping where
deriving Repr, DecidableEq

/-- `nextgen.V1AgentMetadata`, restricted to the fields Create sets.
    `ns` is the Go field `Namespace`. -/
structure V1AgentMetadata where
  ns : String
  highAvailability : Bool
  mappedProjects : Option Servicev1AppProjectMapping
deriving Repr, DecidableEq

/-- `nextgen.V1Agent` — the creation payload, restricted to the fields
    Create sets. -/
structure V1Agent where
  accountIdentifier : String
  projectIdentifier : String
  orgIdentifier : String
  identifier : String
  name : String
  metadata : Option V1AgentMetadata
  description : String
deriving Repr, DecidableEq

/-- The `nextgen.V1Agent` literal Create submits: each optional spec field
    with empty string substituted when unset, identifier hardcoded empty,
    the object-meta name, and the fixed metadata block. -/
def createPayload (cr : Agent) : V1Agent :=
  { accountIdentifier := cr.spec.forProvider.accountIdentifier.getD ""
    projectIdentifier := cr.spec.forProvider.projectIdentifier.getD ""
    orgIdentifier := cr.spec.forProvider.orgIdentifier.getD ""
    identifier := ""
    name := cr.name
    metadata := some { ns := "harness", highAvailability := true,
                       mappedProjects := some {} }
    description := cr.spec.forProvider.description.getD "" }

/-- `(c *external) Create` of agent.go, lines 224–307.  `createFn` is the
    `AgentServiceForServerCreate` remote call. -/
def create (mg : Managed) (createFn : V1Agent → CallOutcome) :
    CreateResult × Managed :=
  match mg with
  | .other => (.err errNotAgent, mg)
  | .agent cr =>
    let o := createFn (createPayload cr)
    match o.err with
    | some e => (.err e, mg)
    | none =>
      match o.agent.healthStatus with
      | none => (.crash, mg)
      | some s =>
        (.ok ⟨[]⟩, .agent { cr with status :=
          { cr.status with atProvider := { state := s } } })

/-- `(c *external) Update` of agent.go, lines 310–313: returns the empty
    update and nil error unconditionally (the type assertion is commented
    out), touching nothing. -/
def update (mg : Managed) : (ExternalUpdate × Option String) × Managed :=
  ((⟨[]⟩, none), mg)

/-- `(c *external) Delete` of agent.go, lines 328–337: type-asserts, logs,
    and returns nil; no remote call is made (none is even available to it). -/
def delete (mg : Managed) : Option String × Managed :=
  match mg with
  | .other => (some errNotAgent, mg)
  | .agent _ => (none, mg)

/-- Whether Observe's deferred `response.Body.Close()` actually runs: the
    remote call must have been reached (an Agent input whose
    AccountIdentifier is set — otherwise the function returned, or exited
    via `log.Fatalln`, beforehand) and its response pointer must be
    non-nil. -/
def observeCloseRuns (mg : Managed) (get : String → String → CallOutcome) : Bool :=
  match mg with
  | .other => false
  | .agent cr =>
    match cr.spec.forProvider.accountIdentifier with
    | none => false
    | some a => ((get (cr.spec.forProvider.identifier.getD "") a).response).isSome

/-- `Observe` with its deferred cleanup (agent.go:183–190): the computed
    result of `observe`, except that a failing `response.Body.Close()`
    triggers `log.Fatal` — also while a nil-pointer panic is unwinding.
    `closeErr` is the close outcome when the close runs. -/
def observeRun (mg : Managed) (get : String → String → CallOutcome)
    (closeErr : Option String) : ObserveResult × Managed :=
  if observeCloseRuns mg get then
    match closeErr with
    | some m => (.fatal m, (observe mg get).2)
    | none => observe mg get
  else observe mg get

/-- Whether Create's deferred `response.Body.Close()` actually runs: the
    remote call must have been reached (an Agent input) and its response
    pointer must be non-nil. -/
def createCloseRuns (mg : Managed) (createFn : V1Agent → CallOutcome) : Bool :=
  match mg with
  | .other => false
  | .agent cr => ((createFn (createPayload cr)).response).isSome

/-- `Create` with its deferred cleanup (agent.go:285–292): the computed
    result of `create`, except that a failing `response.Body.Close()`
    triggers `log.Fatal` — also while a nil-pointer panic is unwinding. -/
def createRun (mg : Managed) (createFn : V1Agent → CallOutcome)
    (closeErr : Option String) : CreateResult × Managed :=
  if createCloseRuns mg createFn then
    match closeErr with
    | some m => (.fatal m, (create mg createFn).2)
    | none => create mg createFn
  else create mg createFn

/-- `ProviderConfigSpec.Credentials`, reduced to the source selector the
    extractor consumes. -/
structure ProviderConfigCredentials where
  source : String
deriving Repr, DecidableEq

/-- `apisv1alpha1.ProviderConfig`, reduced to its credentials spec. -/
structure ProviderConfig where
  credentials : ProviderConfigCredentials
deriving Repr, DecidableEq

/-- `HarnessService` — the configured SDK client wrapper (its contents are
    irrelevant to the adapter's control flow). -/
structure HarnessService where
deriving Repr, DecidableEq

/-- `newHarnessService` — the package-level service constructor: builds the
    client and never fails (always returns a nil error). -/
def newHarnessService (_creds : List Nat) : Except String HarnessService :=
  .ok {}

/-- The `external` client produced by Connect. -/
structure External where
  service : HarnessService
deriving Repr, DecidableEq

/-- `(c *connector) Connect` of agent.go, lines 125–151.  `track` is
    `usage.Track`, `getPC` the ProviderConfig lookup by reference name,
    `extractor` `resource.CommonCredentialExtractor` on the config's
    credentials, `newServiceFn` the injected service constructor. -/
def connect (mg : Managed)
    (track : Managed → Option String)
    (getPC : String → Except String ProviderConfig)
    (extractor : ProviderConfigCredentials → Except String (List Nat))
    (newServiceFn : List Nat → Except String HarnessService) :
    Except String External :=
  match mg with
  | .other => .error errNotAgent
  | .agent cr =>
    match track mg with
    | some e => .error (wrap e errTrackPCUsage)
    | none =>
      match getPC cr.spec.providerConfigRef with
      | .error e => .error (wrap e errGetPC)
      | .ok pc =>
        match extractor pc.credentials with
        | .error e => .error (wrap e errGetCreds)
        | .ok data =>
          match newServiceFn data with
          | .error e => .error (wrap e errNewClient)
          | .ok svc => .ok { service := svc }

/-- The not-found guard is taken whenever the call errored or the response
    carries a 404 status. -/
theorem notFoundBranch_of (o : CallOutcome)
    (h : o.err ≠ none ∨ ∃ r, o.response = some r ∧ r.statusCode = StatusNotFound) :
    notFoundBranch o = true := by
  unfold notFoundBranch
  rcases h with h | ⟨r, hr, hc⟩
  · cases he : o.err with
    | none => exact absurd he h
    | some e => simp [he]
  · rw [hr]
    simp [hc]

/-- Claim C1: when the remote lookup reports HTTP 404 or returns any error,
    Observe reports ResourceExists=false with a nil error, leaving the
    resource untouched. -/
theorem C1_observe_notfound_or_error (cr : Agent)
    (get : String → String → CallOutcome) (a : String)
    (hacct : cr.spec.forProvider.accountIdentifier = some a)
    (h : (get (cr.spec.forProvider.identifier.getD "") a).err ≠ none ∨
      ∃ r, (get (cr.spec.forProvider.identifier.getD "") a).response = some r ∧
        r.statusCode = StatusNotFound) :
    observe (Managed.agent cr) get =
      (ObserveResult.ok ⟨false, false⟩, Managed.agent cr) := by
  have hb := notFoundBranch_of _ h
  simp only [observe, hacct, hb, if_true]

/-- Witness for C1 at a concrete resource and a 404 remote outcome. -/
theorem C1_witness :
    observe (Managed.agent ⟨"example",
        ⟨"pc", ⟨some "acct", none, none, none, [], some "id"⟩⟩, ⟨[], ⟨""⟩⟩⟩)
      (fun _ _ => ⟨⟨none⟩, some ⟨404⟩, none⟩) =
      (ObserveResult.ok ⟨false, false⟩, Managed.agent ⟨"example",
        ⟨"pc", ⟨some "acct", none, none, none, [], some "id"⟩⟩, ⟨[], ⟨""⟩⟩⟩) :=
  C1_observe_notfound_or_error _ _ "acct" rfl (Or.inr ⟨⟨404⟩, rfl, rfl⟩)

/-- Claim C4 (amended): for every Agent resource, Delete returns a nil error
    and performs no remote deletion call (its model takes no remote oracle at
    all); a non-Agent input instead gets the type-mismatch error, still with
    no remote call. -/
theorem C4_delete_agent_nil (cr : Agent) :
    delete (Managed.agent cr) = (none, Managed.agent cr) := rfl

/-- Counterexample to claim C4 as stated: on a non-Agent input, Delete
    returns the `errNotAgent` error, not nil. -/
theorem C4_counterexample :
    (delete Managed.other).1 = some errNotAgent ∧
      (delete Managed.other).1 ≠ none :=
  ⟨rfl, fun h => Option.noConfusion h⟩

/-- Claim C7: whenever Observe reports that the resource exists, it also
    reports it up to date; Observe never signals an update. -/
theorem C7_observe_upToDate (mg : Managed) (get : String → String → CallOutcome)
    (obs : ExternalObservation) (h : (observe mg get).1 = ObserveResult.ok obs)
    (hex : obs.resourceExists = true) : obs.resourceUpToDate = true := by
  cases mg with
  | other => simp [observe] at h
  | agent cr =>
    cases hacct : cr.spec.forProvider.accountIdentifier with
    | none => simp [observe, hacct] at h
    | some a =>
      by_cases hb : notFoundBranch (get (cr.spec.forProvider.identifier.getD "") a) = true
      · simp [observe, hacct, hb] at h
        rw [← h] at hex
        simp at hex
      · cases hh : (get (cr.spec.forProvider.identifier.getD "") a).agent.healthStatus with
        | none => simp [observe, hacct, hb, hh] at h
        | some s =>
          by_cases hs : (s == HEALTHY_Servicev1HealthStatus) = true
          · simp [observe, hacct, hb, hh, hs] at h
            rw [← h]
          · simp [observe, hacct, hb, hh, hs] at h
            rw [← h]

/-- Witness for C7 at a concrete resource and a healthy remote outcome. -/
theorem C7_witness :
    (⟨true, true⟩ : ExternalObservation).resourceUpToDate = true :=
  C7_observe_upToDate
    (Managed.agent ⟨"example",
      ⟨"pc", ⟨some "acct", none, none, none, [], some "id"⟩⟩, ⟨[], ⟨""⟩⟩⟩)
    (fun _ _ => ⟨⟨some "HEALTHY"⟩, some ⟨200⟩, none⟩) ⟨true, true⟩ rfl rfl

/-- Claim C8: Update returns the empty update result and a nil error for any
    input whatsoever, leaving the resource exactly as it was. -/
theorem C8_update_noop (mg : Managed) :
    update mg = ((⟨[]⟩, none), mg) := rfl

/-- Claim C10: no adapter operation changes the desired spec — Observe and
    Create preserve it (they write only status), and Update and Delete leave
    the whole resource untouched. -/
theorem C10_spec_preserved (mg : Managed) (get : String → String → CallOutcome)
    (createFn : V1Agent → CallOutcome) :
    ((observe mg get).2).specOf = mg.specOf ∧
    ((create mg createFn).2).specOf = mg.specOf ∧
    (update mg).2 = mg ∧ (delete mg).2 = mg := by
  refine ⟨?_, ?_, rfl, ?_⟩
  · cases mg with
    | other => rfl
    | agent cr =>
      simp only [observe]
      repeat' split
      all_goals rfl
  · cases mg with
    | other => rfl
    | agent cr =>
      simp only [create]
      repeat' split
      all_goals rfl
  · cases mg <;> rfl

/-- Setting a condition always leaves it present in the condition list,
    whether it replaced an existing entry of its type or was appended. -/
theorem mem_setCondition (cs : List Condition) (c : Condition) :
    c ∈ setCondition cs c := by
  unfold setCondition
  by_cases h : cs.any (fun o => o.ctype == c.ctype) = true
  · simp only [h, if_true]
    rcases List.any_eq_true.mp h with ⟨o, ho, hoc⟩
    exact List.mem_map.mpr ⟨o, ho, by simp [hoc]⟩
  · simp [h]

/-- Claim C5: when the remote lookup succeeds and the remote health field is
    the HEALTHY sentinel, Observe sets the Available condition on the
    resource's status. -/
theorem C5_observe_healthy_available (cr : Agent)
    (get : String → String → CallOutcome) (a : String)
    (hacct : cr.spec.forProvider.accountIdentifier = some a)
    (hb : notFoundBranch (get (cr.spec.forProvider.identifier.getD "") a) = false)
    (hh : (get (cr.spec.forProvider.identifier.getD "") a).agent.healthStatus =
      some HEALTHY_Servicev1HealthStatus) :
    observe (Managed.agent cr) get =
      (ObserveResult.ok ⟨true, true⟩, Managed.agent { cr with status :=
        { cr.status with
          conditions := setCondition cr.status.conditions available } }) ∧
    available ∈ setCondition cr.status.conditions available := by
  refine ⟨?_, mem_setCondition _ _⟩
  simp [observe, hacct, hb, hh]

/-- Witness for C5 at a concrete resource and a healthy remote outcome. -/
theorem C5_witness :
    observe (Managed.agent ⟨"example",
        ⟨"pc", ⟨some "acct", none, none, none, [], some "id"⟩⟩, ⟨[], ⟨""⟩⟩⟩)
      (fun _ _ => ⟨⟨some "HEALTHY"⟩, some ⟨200⟩, none⟩) =
      (ObserveResult.ok ⟨true, true⟩, Managed.agent ⟨"example",
        ⟨"pc", ⟨some "acct", none, none, none, [], some "id"⟩⟩,
        ⟨setCondition [] available, ⟨""⟩⟩⟩) ∧
    available ∈ setCondition ([] : List Condition) available :=
  C5_observe_healthy_available _ _ "acct" rfl rfl rfl

/-- Claim C2: with every optional spec field unset, Create submits the
    payload with the empty string substituted everywhere, and on remote
    success copies the remote health status into the observed State. -/
theorem C2_create_empty_spec (cr : Agent) (createFn : V1Agent → CallOutcome)
    (s : String)
    (h1 : cr.spec.forProvider.accountIdentifier = none)
    (h2 : cr.spec.forProvider.projectIdentifier = none)
    (h3 : cr.spec.forProvider.orgIdentifier = none)
    (h4 : cr.spec.forProvider.description = none)
    (hok : (createFn (createPayload cr)).err = none)
    (hh : (createFn (createPayload cr)).agent.healthStatus = some s) :
    createPayload cr =
      ⟨"", "", "", "", cr.name, some ⟨"harness", true, some ⟨⟩⟩, ""⟩ ∧
    create (Managed.agent cr) createFn =
      (CreateResult.ok ⟨[]⟩, Managed.agent { cr with status :=
        { cr.status with atProvider := { state := s } } }) := by
  constructor
  · simp [createPayload, h1, h2, h3, h4]
  · simp only [create, hok, hh]

/-- Witness for C2 at a concrete resource with all optional fields empty. -/
theorem C2_witness :
    createPayload ⟨"example", ⟨"pc", ⟨none, none, none, none, [], none⟩⟩,
        ⟨[], ⟨""⟩⟩⟩ =
      ⟨"", "", "", "", "example", some ⟨"harness", true, some ⟨⟩⟩, ""⟩ ∧
    create (Managed.agent ⟨"example",
        ⟨"pc", ⟨none, none, none, none, [], none⟩⟩, ⟨[], ⟨""⟩⟩⟩)
      (fun _ => ⟨⟨some "HEALTHY"⟩, some ⟨201⟩, none⟩) =
      (CreateResult.ok ⟨[]⟩, Managed.agent ⟨"example",
        ⟨"pc", ⟨none, none, none, none, [], none⟩⟩, ⟨[], ⟨"HEALTHY"⟩⟩⟩) :=
  C2_create_empty_spec _ _ "HEALTHY" rfl rfl rfl rfl rfl rfl

/-- Claim C6: a remote create error is propagated unchanged (no wrapping)
    and the resource — in particular its observed State — is left exactly
    as it was. -/
theorem C6_create_error_passthrough (cr : Agent)
    (createFn : V1Agent → CallOutcome) (e : String)
    (h : (createFn (createPayload cr)).err = some e) :
    create (Managed.agent cr) createFn =
      (CreateResult.err e, Managed.agent cr) := by
  simp only [create, h]

/-- Witness for C6 at a concrete resource and an erroring remote create. -/
theorem C6_witness :
    create (Managed.agent ⟨"example",
        ⟨"pc", ⟨none, none, none, none, [], none⟩⟩, ⟨[], ⟨"old"⟩⟩⟩)
      (fun _ => ⟨⟨none⟩, none, some "boom"⟩) =
      (CreateResult.err "boom", Managed.agent ⟨"example",
        ⟨"pc", ⟨none, none, none, none, [], none⟩⟩, ⟨[], ⟨"old"⟩⟩⟩) :=
  C6_create_error_passthrough _ _ "boom" rfl

/-- Claim C9: when credential extraction fails, Connect returns the error
    wrapped as "cannot get credentials", and no client is constructed — the
    result is the same error for every service-construction function, which
    is therefore never invoked. -/
theorem C9_connect_credentials_error (cr : Agent)
    (track : Managed → Option String)
    (getPC : String → Except String ProviderConfig)
    (extractor : ProviderConfigCredentials → Except String (List Nat))
    (pc : ProviderConfig) (e : String)
    (htrack : track (Managed.agent cr) = none)
    (hpc : getPC cr.spec.providerConfigRef = Except.ok pc)
    (hex : extractor pc.credentials = Except.error e) :
    ∀ newServiceFn : List Nat → Except String HarnessService,
      connect (Managed.agent cr) track getPC extractor newServiceFn =
        Except.error (wrap e errGetCreds) := by
  intro f
  simp only [connect, htrack, hpc, hex]

/-- Witness for C9 at a concrete resource whose secret cannot be resolved. -/
theorem C9_witness :
    connect (Managed.agent ⟨"example",
        ⟨"pc", ⟨none, none, none, none, [], none⟩⟩, ⟨[], ⟨""⟩⟩⟩)
      (fun _ => none) (fun _ => Except.ok ⟨⟨"Secret"⟩⟩)
      (fun _ => Except.error "cannot get secret") newHarnessService =
      Except.error (wrap "cannot get secret" errGetCreds) :=
  C9_connect_credentials_error _ _ _ _ ⟨⟨"Secret"⟩⟩ "cannot get secret"
    rfl rfl rfl newHarnessService

/-- When the deferred body close succeeds, the full Observe run is exactly
    the computed observe result. -/
theorem observeRun_closeOk (mg : Managed) (get : String → String → CallOutcome) :
    observeRun mg get none = observe mg get := by
  unfold observeRun
  split <;> rfl

/-- When the deferred body close succeeds, the full Create run is exactly
    the computed create result. -/
theorem createRun_closeOk (mg : Managed) (createFn : V1Agent → CallOutcome) :
    createRun mg createFn none = create mg createFn := by
  unfold createRun
  split <;> rfl

/-- Counterexample to claim C3 as stated: three process-termination paths.
    On an Agent whose AccountIdentifier is unset, Observe reaches
    `log.Fatalln` instead of returning an error value; and when the
    deferred `response.Body.Close()` fails, both Observe and Create reach
    `log.Fatal` on otherwise-returning branches. -/
theorem C3_counterexample :
    (observeRun (Managed.agent ⟨"example",
        ⟨"pc", ⟨none, none, none, none, [], none⟩⟩, ⟨[], ⟨""⟩⟩⟩)
      (fun _ _ => ⟨⟨none⟩, none, none⟩) none).1 =
      ObserveResult.fatal "AccountIndentifier is required" ∧
    ((observeRun (Managed.agent ⟨"example",
        ⟨"pc", ⟨none, none, none, none, [], none⟩⟩, ⟨[], ⟨""⟩⟩⟩)
      (fun _ _ => ⟨⟨none⟩, none, none⟩) none).1).isReturn = false ∧
    (observeRun (Managed.agent ⟨"example",
        ⟨"pc", ⟨some "acct", none, none, none, [], none⟩⟩, ⟨[], ⟨""⟩⟩⟩)
      (fun _ _ => ⟨⟨none⟩, some ⟨404⟩, none⟩) (some "close failed")).1 =
      ObserveResult.fatal "close failed" ∧
    (createRun (Managed.agent ⟨"example",
        ⟨"pc", ⟨some "acct", none, none, none, [], none⟩⟩, ⟨[], ⟨""⟩⟩⟩)
      (fun _ => ⟨⟨some "HEALTHY"⟩, some ⟨201⟩, none⟩) (some "close failed")).1 =
      CreateResult.fatal "close failed" :=
  ⟨rfl, rfl, rfl, rfl⟩

/-- Claim C3 (amended): failures of Connect, Update and Delete are returned
    as error values (wrapped with a contextual message in Connect), and
    Observe and Create return their failures too — Create propagating the
    remote error unchanged — except for three crash modes: Observe
    terminates the process via `log.Fatalln` when AccountIdentifier is
    unset; Observe and Create fault on a nil remote health pointer on an
    otherwise-successful call; and both terminate via `log.Fatal` when the
    deferred response-body close fails.  Outside those modes (the close
    outcome below is `none`, the close succeeded) every run returns. -/
theorem C3_failures_returned (cr : Agent)
    (get : String → String → CallOutcome) (createFn : V1Agent → CallOutcome)
    (track : Managed → Option String)
    (getPC : String → Except String ProviderConfig)
    (extractor : ProviderConfigCredentials → Except String (List Nat))
    (f : List Nat → Except String HarnessService) (a : String)
    (hacct : cr.spec.forProvider.accountIdentifier = some a)
    (hget : notFoundBranch (get (cr.spec.forProvider.identifier.getD "") a) = true ∨
      ((get (cr.spec.forProvider.identifier.getD "") a).agent.healthStatus).isSome = true)
    (hcreate : ((createFn (createPayload cr)).err).isSome = true ∨
      ((createFn (createPayload cr)).agent.healthStatus).isSome = true) :
    ((observeRun (Managed.agent cr) get none).1).isReturn = true ∧
    ((observeRun Managed.other get none).1).isReturn = true ∧
    ((createRun (Managed.agent cr) createFn none).1).isReturn = true ∧
    ((createRun Managed.other createFn none).1).isReturn = true ∧
    (update (Managed.agent cr)).1 = ((⟨[]⟩ : ExternalUpdate), none) ∧
    (delete (Managed.agent cr)).1 = none ∧
    (delete Managed.other).1 = some errNotAgent ∧
    (∀ e, track (Managed.agent cr) = some e →
      connect (Managed.agent cr) track getPC extractor f =
        Except.error (wrap e errTrackPCUsage)) := by
  simp only [observeRun_closeOk, createRun_closeOk]
  refine ⟨?_, rfl, ?_, rfl, rfl, rfl, rfl, ?_⟩
  · rcases hget with hb | hs
    · simp [observe, hacct, hb, ObserveResult.isReturn]
    · by_cases hb : notFoundBranch (get (cr.spec.forProvider.identifier.getD "") a) = true
      · simp [observe, hacct, hb, ObserveResult.isReturn]
      · cases hh : (get (cr.spec.forProvider.identifier.getD "") a).agent.healthStatus with
        | none => rw [hh] at hs; simp at hs
        | some s =>
          by_cases hhealthy : (s == HEALTHY_Servicev1HealthStatus) = true
          · simp [observe, hacct, hb, hh, hhealthy, ObserveResult.isReturn]
          · simp [observe, hacct, hb, hh, hhealthy, ObserveResult.isReturn]
  · rcases hcreate with he | hs
    · rcases Option.isSome_iff_exists.mp he with ⟨e, he'⟩
      simp [create, he', CreateResult.isReturn]
    · cases he : (createFn (createPayload cr)).err with
      | some e => simp [create, he, CreateResult.isReturn]
      | none =>
        rcases Option.isSome_iff_exists.mp hs with ⟨s, hs'⟩
        simp [create, he, hs', CreateResult.isReturn]
  · intro e he
    simp only [connect, he]

/-- Witness for the amended C3 at concrete inputs: a 404 observe outcome,
    a healthy create outcome, and succeeding deferred closes. -/
theorem C3_witness :
    ((observeRun (Managed.agent ⟨"w3",
        ⟨"pc", ⟨some "acct", none, none, none, [], none⟩⟩, ⟨[], ⟨""⟩⟩⟩)
      (fun _ _ => ⟨⟨none⟩, some ⟨404⟩, none⟩) none).1).isReturn = true ∧
    ((observeRun Managed.other (fun _ _ => ⟨⟨none⟩, some ⟨404⟩, none⟩) none).1).isReturn = true ∧
    ((createRun (Managed.agent ⟨"w3",
        ⟨"pc", ⟨some "acct", none, none, none, [], none⟩⟩, ⟨[], ⟨""⟩⟩⟩)
      (fun _ => ⟨⟨some "HEALTHY"⟩, none, none⟩) none).1).isReturn = true ∧
    ((createRun Managed.other (fun _ => ⟨⟨some "HEALTHY"⟩, none, none⟩) none).1).isReturn = true ∧
    (update (Managed.agent ⟨"w3",
      ⟨"pc", ⟨some "acct", none, none, none, [], none⟩⟩, ⟨[], ⟨""⟩⟩⟩)).1 =
      ((⟨[]⟩ : ExternalUpdate), none) ∧
    (delete (Managed.agent ⟨"w3",
      ⟨"pc", ⟨some "acct", none, none, none, [], none⟩⟩, ⟨[], ⟨""⟩⟩⟩)).1 = none ∧
    (delete Managed.other).1 = some errNotAgent ∧
    (∀ e, (none : Option String) = some e →
      connect (Managed.agent ⟨"w3",
          ⟨"pc", ⟨some "acct", none, none, none, [], none⟩⟩, ⟨[], ⟨""⟩⟩⟩)
        (fun _ => none) (fun _ => Except.ok ⟨⟨"Secret"⟩⟩)
        (fun _ => Except.ok []) newHarnessService =
        Except.error (wrap e errTrackPCUsage)) :=
  C3_failures_returned
    ⟨"w3", ⟨"pc", ⟨some "acct", none, none, none, [], none⟩⟩, ⟨[], ⟨""⟩⟩⟩
    (fun _ _ => ⟨⟨none⟩, some ⟨404⟩, none⟩)
    (fun _ => ⟨⟨some "HEALTHY"⟩, none, none⟩)
    (fun _ => none) (fun _ => Except.ok ⟨⟨"Secret"⟩⟩)
    (fun _ => Except.ok []) newHarnessService
    "acct" rfl (Or.inl rfl) (Or.inr rfl)

end ProviderHarness
